import Mathlib

/-!
Verification of the schema and validation layer declared in `src/app/models.py`.

The repository consists solely of data-model declarations: persisted entities
(User, AIService, Agent, AgentServiceConfig, APIKey, TestSession,
ConversationLog) and their transient create/update payload types.  The
embedding below transcribes, for each type, its field list and the field-level
constraints declared on it (`ge`/`le` numeric bounds, `min_length`/`max_length`
string bounds, the email regex, `unique=True` columns, enum-typed fields and
their closed value sets, and the declared defaults).

Python `Decimal` fields are modelled as `ℚ`, `int` fields as `Int`, `datetime`
fields as abstract `Nat` timestamps, `Dict[str, Any]` JSON mappings as
association lists with string values (their contents are never constrained by
the schema), and `Optional[T]` fields as `Option T`.  ORM `Relationship`
attributes are navigation properties, not columns, and are not fields of the
persisted record.
-/

namespace Models

/-- `ServiceType(str, Enum)` from models.py, values "tts", "stt", "llm". -/
inductive ServiceType
  | tts
  | stt
  | llm
deriving DecidableEq, Repr

/-- The string value of a `ServiceType` member, as declared in the enum. -/
def ServiceType.value : ServiceType → String
  | .tts => "tts"
  | .stt => "stt"
  | .llm => "llm"

/-- Constructing a `ServiceType` from a string: member lookup by value,
`some` for a declared value and `none` (a rejected construction) otherwise. -/
def ServiceType.ofString (s : String) : Option ServiceType :=
  if s = "tts" then some .tts
  else if s = "stt" then some .stt
  else if s = "llm" then some .llm
  else none

/-- `AgentStatus(str, Enum)` from models.py, values "draft", "active", "inactive". -/
inductive AgentStatus
  | draft
  | active
  | inactive
deriving DecidableEq, Repr

/-- The string value of an `AgentStatus` member. -/
def AgentStatus.value : AgentStatus → String
  | .draft => "draft"
  | .active => "active"
  | .inactive => "inactive"

/-- Constructing an `AgentStatus` from a string. -/
def AgentStatus.ofString (s : String) : Option AgentStatus :=
  if s = "draft" then some .draft
  else if s = "active" then some .active
  else if s = "inactive" then some .inactive
  else none

/-- `TestSessionStatus(str, Enum)` from models.py, values "active", "completed", "failed". -/
inductive TestSessionStatus
  | active
  | completed
  | failed
deriving DecidableEq, Repr

/-- The string value of a `TestSessionStatus` member. -/
def TestSessionStatus.value : TestSessionStatus → String
  | .active => "active"
  | .completed => "completed"
  | .failed => "failed"

/-- Constructing a `TestSessionStatus` from a string. -/
def TestSessionStatus.ofString (s : String) : Option TestSessionStatus :=
  if s = "active" then some .active
  else if s = "completed" then some .completed
  else if s = "failed" then some .failed
  else none

/-! ### The email pattern

`models.py` constrains `User.email` and `UserCreate.email` with the regex
`^[a-zA-Z0-9_.+-]+@[a-zA-Z0-9-]+\.[a-zA-Z0-9-.]+$` (anchored at both ends).
Since `@` belongs to no character class, a matching string has exactly one
`@`; since the middle class excludes `.`, the `\.` must be the first `.`
after the `@`.  `emailMatches` decides matchability accordingly. -/

/-- Membership in the class `[a-zA-Z0-9_.+-]` (local part). -/
def isLocalChar (c : Char) : Bool :=
  c.isAlpha || c.isDigit || c = '_' || c = '.' || c = '+' || c = '-'

/-- Membership in the class `[a-zA-Z0-9-]` (domain label before the dot). -/
def isDomainChar (c : Char) : Bool :=
  c.isAlpha || c.isDigit || c = '-'

/-- Membership in the class `[a-zA-Z0-9-.]` (rest of the domain). -/
def isDomainTailChar (c : Char) : Bool :=
  c.isAlpha || c.isDigit || c = '-' || c = '.'

/-- Split a list at the first occurrence of `c`, dropping that occurrence. -/
def splitAtFirst (c : Char) : List Char → Option (List Char × List Char)
  | [] => none
  | x :: xs =>
      if x = c then some ([], xs)
      else (splitAtFirst c xs).map (fun p => (x :: p.1, p.2))

/-- Whether a string matches the anchored email regex of models.py. -/
def emailMatches (s : String) : Bool :=
  match splitAtFirst '@' s.toList with
  | none => false
  | some (localPart, rest) =>
      !localPart.isEmpty && localPart.all isLocalChar &&
      match splitAtFirst '.' rest with
      | none => false
      | some (dom, tail) =>
          !dom.isEmpty && dom.all isDomainChar &&
          !tail.isEmpty && tail.all isDomainTailChar

/-! ### Persisted entity: User -/

/-- The persisted `User` model (table "users"). -/
structure User where
  id : Option Nat
  email : String
  username : String
  full_name : String
  password_hash : String
  is_active : Bool
  created_at : Nat
  updated_at : Nat
deriving DecidableEq, Repr

/-- The declared field constraints of `User`: `email` bounded by 255 chars and
matching the email regex, `username` ≤ 50, `full_name` ≤ 100,
`password_hash` ≤ 255. -/
def User.isValid (u : User) : Bool :=
  decide (u.email.length ≤ 255) && emailMatches u.email &&
  decide (u.username.length ≤ 50) &&
  decide (u.full_name.length ≤ 100) &&
  decide (u.password_hash.length ≤ 255)

/-- The column fields declared on `User`, in source order. -/
def User.fieldNames : List String :=
  ["id", "email", "username", "full_name", "password_hash", "is_active",
   "created_at", "updated_at"]

/-! ### Transient payloads: UserCreate, UserUpdate -/

/-- The non-persisted `UserCreate` request schema. -/
structure UserCreate where
  email : String
  username : String
  full_name : String
  password : String
deriving DecidableEq, Repr

/-- Declared constraints of `UserCreate`: email regex and ≤ 255, username ≤ 50,
full_name ≤ 100, password length between 8 and 100 inclusive. -/
def UserCreate.isValid (c : UserCreate) : Bool :=
  decide (c.email.length ≤ 255) && emailMatches c.email &&
  decide (c.username.length ≤ 50) &&
  decide (c.full_name.length ≤ 100) &&
  decide (8 ≤ c.password.length) && decide (c.password.length ≤ 100)

/-- The fields declared on `UserCreate`, in source order. -/
def UserCreate.fieldNames : List String :=
  ["email", "username", "full_name", "password"]

/-- The non-persisted `UserUpdate` schema: only `full_name` and `username`,
both defaulting to unset. -/
structure UserUpdate where
  full_name : Option String := none
  username : Option String := none
deriving DecidableEq, Repr

/-- Declared constraints of `UserUpdate`: length bounds on fields when set. -/
def UserUpdate.isValid (p : UserUpdate) : Bool :=
  p.full_name.all (fun s => decide (s.length ≤ 100)) &&
  p.username.all (fun s => decide (s.length ≤ 50))

/-- The fields declared on `UserUpdate`, in source order. -/
def UserUpdate.fieldNames : List String :=
  ["full_name", "username"]

/-! ### Persisted entity: AIService -/

/-- JSON-like `Dict[str, Any]` mappings; the schema constrains nothing about
their contents, so values are modelled as strings. -/
abbrev ConfigMap := List (String × String)

/-- The persisted `AIService` model (table "ai_services"). -/
structure AIService where
  id : Option Nat
  name : String
  service_type : ServiceType
  provider : String
  is_active : Bool := true
  description : String := ""
  default_config : ConfigMap := []
  created_at : Nat
deriving DecidableEq, Repr

/-- The column fields declared on `AIService`, in source order. -/
def AIService.fieldNames : List String :=
  ["id", "name", "service_type", "provider", "is_active", "description",
   "default_config", "created_at"]

/-- The non-persisted `AIServiceCreate` schema. -/
structure AIServiceCreate where
  name : String
  service_type : ServiceType
  provider : String
  description : String := ""
  default_config : ConfigMap := []
deriving DecidableEq, Repr

/-- The fields declared on `AIServiceCreate`, in source order. -/
def AIServiceCreate.fieldNames : List String :=
  ["name", "service_type", "provider", "description", "default_config"]

/-- The non-persisted `AIServiceUpdate` schema: name, description, is_active
and default_config only, all defaulting to unset; it has no `service_type`
field. -/
structure AIServiceUpdate where
  name : Option String := none
  description : Option String := none
  is_active : Option Bool := none
  default_config : Option ConfigMap := none
deriving DecidableEq, Repr

/-- The fields declared on `AIServiceUpdate`, in source order. -/
def AIServiceUpdate.fieldNames : List String :=
  ["name", "description", "is_active", "default_config"]

/-! ### Persisted entity: Agent -/

/-- The persisted `Agent` model (table "agents").  `Decimal` voice parameters
are modelled as `ℚ`. -/
structure Agent where
  id : Option Nat
  user_id : Nat
  name : String
  description : String := ""
  system_message : String := ""
  status : AgentStatus := .draft
  voice_pitch : ℚ := 1
  voice_speed : ℚ := 1
  voice_volume : ℚ := 1
  response_timeout : Int := 30
  max_conversation_length : Int := 50
  created_at : Nat
  updated_at : Nat
deriving DecidableEq, Repr

/-- The declared field constraints of `Agent`: string length bounds, and the
inclusive numeric ranges `voice_pitch ∈ [0.1, 2.0]`, `voice_speed ∈ [0.1, 3.0]`,
`voice_volume ∈ [0.1, 2.0]`, `response_timeout ∈ [5, 300]`,
`max_conversation_length ∈ [1, 1000]`. -/
def Agent.isValid (a : Agent) : Bool :=
  decide (a.name.length ≤ 100) &&
  decide (a.description.length ≤ 500) &&
  decide (a.system_message.length ≤ 2000) &&
  decide (Rat.divInt 1 10 ≤ a.voice_pitch) && decide (a.voice_pitch ≤ 2) &&
  decide (Rat.divInt 1 10 ≤ a.voice_speed) && decide (a.voice_speed ≤ 3) &&
  decide (Rat.divInt 1 10 ≤ a.voice_volume) && decide (a.voice_volume ≤ 2) &&
  decide (5 ≤ a.response_timeout) && decide (a.response_timeout ≤ 300) &&
  decide (1 ≤ a.max_conversation_length) &&
  decide (a.max_conversation_length ≤ 1000)

/-- The column fields declared on `Agent`, in source order. -/
def Agent.fieldNames : List String :=
  ["id", "user_id", "name", "description", "system_message", "status",
   "voice_pitch", "voice_speed", "voice_volume", "response_timeout",
   "max_conversation_length", "created_at", "updated_at"]

/-- The non-persisted `AgentCreate` schema, with the declared defaults. -/
structure AgentCreate where
  name : String
  description : String := ""
  system_message : String := ""
  voice_pitch : ℚ := 1
  voice_speed : ℚ := 1
  voice_volume : ℚ := 1
  response_timeout : Int := 30
  max_conversation_length : Int := 50
deriving DecidableEq, Repr

/-- Declared constraints of `AgentCreate`: the same bounds as on `Agent`. -/
def AgentCreate.isValid (c : AgentCreate) : Bool :=
  decide (c.name.length ≤ 100) &&
  decide (c.description.length ≤ 500) &&
  decide (c.system_message.length ≤ 2000) &&
  decide (Rat.divInt 1 10 ≤ c.voice_pitch) && decide (c.voice_pitch ≤ 2) &&
  decide (Rat.divInt 1 10 ≤ c.voice_speed) && decide (c.voice_speed ≤ 3) &&
  decide (Rat.divInt 1 10 ≤ c.voice_volume) && decide (c.voice_volume ≤ 2) &&
  decide (5 ≤ c.response_timeout) && decide (c.response_timeout ≤ 300) &&
  decide (1 ≤ c.max_conversation_length) &&
  decide (c.max_conversation_length ≤ 1000)

/-- The fields declared on `AgentCreate`, in source order. -/
def AgentCreate.fieldNames : List String :=
  ["name", "description", "system_message", "voice_pitch", "voice_speed",
   "voice_volume", "response_timeout", "max_conversation_length"]

/-- The non-persisted `AgentUpdate` schema: every field optional, defaulting
to unset. -/
structure AgentUpdate where
  name : Option String := none
  description : Option String := none
  system_message : Option String := none
  voice_pitch : Option ℚ := none
  voice_speed : Option ℚ := none
  voice_volume : Option ℚ := none
  response_timeout : Option Int := none
  max_conversation_length : Option Int := none
  status : Option AgentStatus := none
deriving DecidableEq, Repr

/-- Declared constraints of `AgentUpdate`: the bounds apply to each field
when it is set. -/
def AgentUpdate.isValid (p : AgentUpdate) : Bool :=
  p.name.all (fun s => decide (s.length ≤ 100)) &&
  p.description.all (fun s => decide (s.length ≤ 500)) &&
  p.system_message.all (fun s => decide (s.length ≤ 2000)) &&
  p.voice_pitch.all (fun q => decide (Rat.divInt 1 10 ≤ q) && decide (q ≤ 2)) &&
  p.voice_speed.all (fun q => decide (Rat.divInt 1 10 ≤ q) && decide (q ≤ 3)) &&
  p.voice_volume.all (fun q => decide (Rat.divInt 1 10 ≤ q) && decide (q ≤ 2)) &&
  p.response_timeout.all (fun n => decide (5 ≤ n) && decide (n ≤ 300)) &&
  p.max_conversation_length.all (fun n => decide (1 ≤ n) && decide (n ≤ 1000))

/-- The fields declared on `AgentUpdate`, in source order. -/
def AgentUpdate.fieldNames : List String :=
  ["name", "description", "system_message", "voice_pitch", "voice_speed",
   "voice_volume", "response_timeout", "max_conversation_length", "status"]

/-! ### Persisted entity: AgentServiceConfig and its payloads -/

/-- The persisted `AgentServiceConfig` model (table "agent_service_configs"). -/
structure AgentServiceConfig where
  id : Option Nat
  agent_id : Nat
  service_id : Nat
  config : ConfigMap := []
  is_primary : Bool := false
  created_at : Nat
  updated_at : Nat
deriving DecidableEq, Repr

/-- The column fields declared on `AgentServiceConfig`, in source order. -/
def AgentServiceConfig.fieldNames : List String :=
  ["id", "agent_id", "service_id", "config", "is_primary", "created_at",
   "updated_at"]

/-- The non-persisted `ServiceConfigCreate` schema. -/
structure ServiceConfigCreate where
  service_id : Nat
  config : ConfigMap := []
  is_primary : Bool := false
deriving DecidableEq, Repr

/-- The fields declared on `ServiceConfigCreate`, in source order. -/
def ServiceConfigCreate.fieldNames : List String :=
  ["service_id", "config", "is_primary"]

/-- The non-persisted `ServiceConfigUpdate` schema. -/
structure ServiceConfigUpdate where
  config : Option ConfigMap := none
  is_primary : Option Bool := none
deriving DecidableEq, Repr

/-- The fields declared on `ServiceConfigUpdate`, in source order. -/
def ServiceConfigUpdate.fieldNames : List String :=
  ["config", "is_primary"]

/-! ### Persisted entity: APIKey and its payloads -/

/-- The persisted `APIKey` model (table "api_keys"). -/
structure APIKey where
  id : Option Nat
  agent_id : Nat
  key_hash : String
  key_preview : String
  name : String
  is_active : Bool := true
  usage_count : Int := 0
  last_used_at : Option Nat := none
  expires_at : Option Nat := none
  rate_limit_per_hour : Option Int := none
  rate_limit_per_day : Option Int := none
  created_at : Nat
  updated_at : Nat
deriving DecidableEq, Repr

/-- The declared field constraints of `APIKey`: length bounds,
`usage_count ≥ 0`, rate limits ≥ 1 when set. -/
def APIKey.isValid (k : APIKey) : Bool :=
  decide (k.key_hash.length ≤ 255) &&
  decide (k.key_preview.length ≤ 20) &&
  decide (k.name.length ≤ 100) &&
  decide (0 ≤ k.usage_count) &&
  k.rate_limit_per_hour.all (fun n => decide (1 ≤ n)) &&
  k.rate_limit_per_day.all (fun n => decide (1 ≤ n))

/-- The column fields declared on `APIKey`, in source order. -/
def APIKey.fieldNames : List String :=
  ["id", "agent_id", "key_hash", "key_preview", "name", "is_active",
   "usage_count", "last_used_at", "expires_at", "rate_limit_per_hour",
   "rate_limit_per_day", "created_at", "updated_at"]

/-- The non-persisted `APIKeyCreate` schema. -/
structure APIKeyCreate where
  name : String
  expires_at : Option Nat := none
  rate_limit_per_hour : Option Int := none
  rate_limit_per_day : Option Int := none
deriving DecidableEq, Repr

/-- The fields declared on `APIKeyCreate`, in source order. -/
def APIKeyCreate.fieldNames : List String :=
  ["name", "expires_at", "rate_limit_per_hour", "rate_limit_per_day"]

/-- The non-persisted `APIKeyUpdate` schema; note it has no `usage_count`
and no `key_hash` field. -/
structure APIKeyUpdate where
  name : Option String := none
  is_active : Option Bool := none
  expires_at : Option Nat := none
  rate_limit_per_hour : Option Int := none
  rate_limit_per_day : Option Int := none
deriving DecidableEq, Repr

/-- The fields declared on `APIKeyUpdate`, in source order. -/
def APIKeyUpdate.fieldNames : List String :=
  ["name", "is_active", "expires_at", "rate_limit_per_hour",
   "rate_limit_per_day"]

/-! ### Persisted entity: TestSession and TestSessionCreate -/

/-- The persisted `TestSession` model (table "test_sessions"). -/
structure TestSession where
  id : Option Nat
  user_id : Nat
  agent_id : Nat
  status : TestSessionStatus := .active
  session_data : ConfigMap := []
  total_exchanges : Int := 0
  avg_response_time : Option ℚ := none
  total_duration : Option Int := none
  error_count : Int := 0
  last_error : Option String := none
  started_at : Nat
  ended_at : Option Nat := none
  created_at : Nat
deriving DecidableEq, Repr

/-- The column fields declared on `TestSession`, in source order. -/
def TestSession.fieldNames : List String :=
  ["id", "user_id", "agent_id", "status", "session_data", "total_exchanges",
   "avg_response_time", "total_duration", "error_count", "last_error",
   "started_at", "ended_at", "created_at"]

/-- The non-persisted `TestSessionCreate` schema: only `agent_id`. -/
structure TestSessionCreate where
  agent_id : Nat
deriving DecidableEq, Repr

/-- The fields declared on `TestSessionCreate`. -/
def TestSessionCreate.fieldNames : List String :=
  ["agent_id"]

/-! ### Persisted entity: ConversationLog and ConversationEntry -/

/-- The persisted `ConversationLog` model (table "conversation_logs"). -/
structure ConversationLog where
  id : Option Nat
  test_session_id : Nat
  sequence_number : Int
  user_input : String
  agent_response : String
  processing_time : ℚ
  tts_processing_time : Option ℚ := none
  stt_processing_time : Option ℚ := none
  llm_processing_time : Option ℚ := none
  audio_input_duration : Option ℚ := none
  audio_output_duration : Option ℚ := none
  has_error : Bool := false
  error_message : Option String := none
  timestamp : Nat
deriving DecidableEq, Repr

/-- The declared field constraints of `ConversationLog`:
`sequence_number ≥ 1`, `processing_time ≥ 0`, each optional timing and
duration ≥ 0 when set, string length bounds. -/
def ConversationLog.isValid (l : ConversationLog) : Bool :=
  decide (1 ≤ l.sequence_number) &&
  decide (l.user_input.length ≤ 2000) &&
  decide (l.agent_response.length ≤ 5000) &&
  decide (0 ≤ l.processing_time) &&
  l.tts_processing_time.all (fun q => decide (0 ≤ q)) &&
  l.stt_processing_time.all (fun q => decide (0 ≤ q)) &&
  l.llm_processing_time.all (fun q => decide (0 ≤ q)) &&
  l.audio_input_duration.all (fun q => decide (0 ≤ q)) &&
  l.audio_output_duration.all (fun q => decide (0 ≤ q)) &&
  l.error_message.all (fun s => decide (s.length ≤ 1000))

/-- The column fields declared on `ConversationLog`, in source order. -/
def ConversationLog.fieldNames : List String :=
  ["id", "test_session_id", "sequence_number", "user_input", "agent_response",
   "processing_time", "tts_processing_time", "stt_processing_time",
   "llm_processing_time", "audio_input_duration", "audio_output_duration",
   "has_error", "error_message", "timestamp"]

/-- The non-persisted `ConversationEntry` schema. -/
structure ConversationEntry where
  user_input : String
  agent_response : String
  processing_time : ℚ
  tts_processing_time : Option ℚ := none
  stt_processing_time : Option ℚ := none
  llm_processing_time : Option ℚ := none
  audio_input_duration : Option ℚ := none
  audio_output_duration : Option ℚ := none
  has_error : Bool := false
  error_message : Option String := none
deriving DecidableEq, Repr

/-- Declared constraints of `ConversationEntry`: `processing_time ≥ 0`,
optional timings and durations ≥ 0 when set, string length bounds. -/
def ConversationEntry.isValid (e : ConversationEntry) : Bool :=
  decide (e.user_input.length ≤ 2000) &&
  decide (e.agent_response.length ≤ 5000) &&
  decide (0 ≤ e.processing_time) &&
  e.tts_processing_time.all (fun q => decide (0 ≤ q)) &&
  e.stt_processing_time.all (fun q => decide (0 ≤ q)) &&
  e.llm_processing_time.all (fun q => decide (0 ≤ q)) &&
  e.audio_input_duration.all (fun q => decide (0 ≤ q)) &&
  e.audio_output_duration.all (fun q => decide (0 ≤ q)) &&
  e.error_message.all (fun s => decide (s.length ≤ 1000))

/-- The fields declared on `ConversationEntry`, in source order. -/
def ConversationEntry.fieldNames : List String :=
  ["user_input", "agent_response", "processing_time", "tts_processing_time",
   "stt_processing_time", "llm_processing_time", "audio_input_duration",
   "audio_output_duration", "has_error", "error_message"]

/-! ### Update application

The repository contains only the schema declarations; the code that applies
an update payload to a persisted record lives in the unseen web/storage
layers.  The functions below are modelled from the spec: "optionality
reflecting unset = leave unchanged semantics on update types" — a set field
overwrites the corresponding persisted field, an unset (`none`) field leaves
it unchanged, and fields absent from the payload type cannot change at all. -/

/-- Modelled from the spec: applying a `UserUpdate` to a persisted `User`
(unset = leave unchanged); the payload declares only `full_name` and
`username`, so no other column can change. -/
def applyUserUpdate (u : User) (p : UserUpdate) : User :=
  { u with
    full_name := p.full_name.getD u.full_name
    username := p.username.getD u.username }

/-- Modelled from the spec: applying an `AgentUpdate` to a persisted `Agent`
(unset = leave unchanged). -/
def applyAgentUpdate (a : Agent) (p : AgentUpdate) : Agent :=
  { a with
    name := p.name.getD a.name
    description := p.description.getD a.description
    system_message := p.system_message.getD a.system_message
    voice_pitch := p.voice_pitch.getD a.voice_pitch
    voice_speed := p.voice_speed.getD a.voice_speed
    voice_volume := p.voice_volume.getD a.voice_volume
    response_timeout := p.response_timeout.getD a.response_timeout
    max_conversation_length :=
      p.max_conversation_length.getD a.max_conversation_length
    status := p.status.getD a.status }

/-- Modelled from the spec: applying an `APIKeyUpdate` to a persisted
`APIKey` (unset = leave unchanged); the payload has no `usage_count` and no
`key_hash` field, so neither can change. -/
def applyAPIKeyUpdate (k : APIKey) (p : APIKeyUpdate) : APIKey :=
  { k with
    name := p.name.getD k.name
    is_active := p.is_active.getD k.is_active
    expires_at := (p.expires_at.map some).getD k.expires_at
    rate_limit_per_hour :=
      (p.rate_limit_per_hour.map some).getD k.rate_limit_per_hour
    rate_limit_per_day :=
      (p.rate_limit_per_day.map some).getD k.rate_limit_per_day }

/-- Modelled from the spec: applying an `AIServiceUpdate` to a persisted
`AIService` (unset = leave unchanged); the payload has no `service_type`
field, so the service type is fixed at creation. -/
def applyAIServiceUpdate (s : AIService) (p : AIServiceUpdate) : AIService :=
  { s with
    name := p.name.getD s.name
    description := p.description.getD s.description
    is_active := p.is_active.getD s.is_active
    default_config := p.default_config.getD s.default_config }

/-- Modelled from the spec: the persisted `AIService` produced from an
`AIServiceCreate` payload with a server-assigned id and creation timestamp;
`is_active` takes its declared default `True`. -/
def mkAIService (c : AIServiceCreate) (newId now : Nat) : AIService :=
  { id := some newId
    name := c.name
    service_type := c.service_type
    provider := c.provider
    is_active := true
    description := c.description
    default_config := c.default_config
    created_at := now }

/-! ### The persisted store and its uniqueness constraints

`models.py` marks `User.email`, `User.username` and `APIKey.key_hash` with
`unique=True`.  The spec delegates enforcement to the storage layer:
"enforced by the storage layer, surfaced to the caller as a conflict error".
The store below is modelled from the spec accordingly: a create or update
whose unique column would duplicate an existing row's value fails with
`uniquenessConflict` and changes nothing. -/

/-- The error taxonomy of the spec (§7). -/
inductive SchemaError
  | validationError
  | uniquenessConflict
  | referenceError
  | notFound
deriving DecidableEq, Repr

/-- The persisted store: user rows, API-key rows, and the next server-assigned
identifier. -/
structure DB where
  users : List User
  apiKeys : List APIKey
  nextId : Nat
deriving DecidableEq, Repr

/-- The empty store. -/
def DB.empty : DB := ⟨[], [], 1⟩

/-- Modelled from the spec: persisting a validated `UserCreate`.  The
`password_hash` is computed by the external authentication service and passed
in; a duplicate email or username is a `uniquenessConflict`. -/
def createUser (d : DB) (c : UserCreate) (pwHash : String) (now : Nat) :
    Except SchemaError DB :=
  if !c.isValid then .error .validationError
  else if d.users.any (fun u => u.email = c.email || u.username = c.username)
  then .error .uniquenessConflict
  else .ok
    { d with
      users :=
        { id := some d.nextId
          email := c.email
          username := c.username
          full_name := c.full_name
          password_hash := pwHash
          is_active := true
          created_at := now
          updated_at := now } :: d.users
      nextId := d.nextId + 1 }

/-- Modelled from the spec: persisting an API key for an agent.  The hashed
key and its preview are computed by the external authentication service;
`usage_count` takes its declared default 0; a duplicate `key_hash` is a
`uniquenessConflict`. -/
def createAPIKey (d : DB) (agentId : Nat) (c : APIKeyCreate)
    (keyHash keyPreview : String) (now : Nat) : Except SchemaError DB :=
  if d.apiKeys.any (fun k => k.key_hash = keyHash)
  then .error .uniquenessConflict
  else .ok
    { d with
      apiKeys :=
        { id := some d.nextId
          agent_id := agentId
          key_hash := keyHash
          key_preview := keyPreview
          name := c.name
          is_active := true
          usage_count := 0
          last_used_at := none
          expires_at := c.expires_at
          rate_limit_per_hour := c.rate_limit_per_hour
          rate_limit_per_day := c.rate_limit_per_day
          created_at := now
          updated_at := now } :: d.apiKeys
      nextId := d.nextId + 1 }

/-- Replace the first element whose id is `some uid` by `x'`. -/
def replaceById {α : Type} (getId : α → Option Nat) (uid : Nat) (x' : α) :
    List α → List α
  | [] => []
  | x :: xs =>
      if getId x = some uid then x' :: xs
      else x :: replaceById getId uid x' xs

/-- The row written back by a user update: the applied payload with a fresh
`updated_at` stamp. -/
def updatedUserRow (u : User) (p : UserUpdate) (now : Nat) : User :=
  { applyUserUpdate u p with updated_at := now }

/-- The row written back by an API-key update. -/
def updatedAPIKeyRow (k : APIKey) (p : APIKeyUpdate) (now : Nat) : APIKey :=
  { applyAPIKeyUpdate k p with updated_at := now }

/-- Modelled from the spec: updating a persisted user by id.  The unique
`username` column is still enforced by the storage layer: writing a username
already held by a different row is a `uniquenessConflict`. -/
def updateUser (d : DB) (uid : Nat) (p : UserUpdate) (now : Nat) :
    Except SchemaError DB :=
  match d.users.find? (fun u => decide (u.id = some uid)) with
  | none => .error .notFound
  | some u =>
      if !p.isValid then .error .validationError
      else if d.users.any (fun v => decide (v.id ≠ some uid) &&
          decide (v.username = (applyUserUpdate u p).username))
      then .error .uniquenessConflict
      else .ok
        { d with users := replaceById User.id uid (updatedUserRow u p now) d.users }

/-- Modelled from the spec: updating a persisted API key by id.
`APIKeyUpdate` carries no `key_hash` field, so no uniqueness conflict can
arise. -/
def updateAPIKey (d : DB) (kid : Nat) (p : APIKeyUpdate) (now : Nat) :
    Except SchemaError DB :=
  match d.apiKeys.find? (fun k => decide (k.id = some kid)) with
  | none => .error .notFound
  | some k =>
      .ok
        { d with apiKeys := replaceById APIKey.id kid (updatedAPIKeyRow k p now) d.apiKeys }

/-- The states of the persisted store reachable from the empty store through
the schema-level operations. -/
inductive Reachable : DB → Prop
  | empty : Reachable DB.empty
  | createUserStep {d c pwHash now d'} : Reachable d →
      createUser d c pwHash now = .ok d' → Reachable d'
  | updateUserStep {d uid p now d'} : Reachable d →
      updateUser d uid p now = .ok d' → Reachable d'
  | createAPIKeyStep {d agentId c keyHash keyPreview now d'} : Reachable d →
      createAPIKey d agentId c keyHash keyPreview now = .ok d' → Reachable d'
  | updateAPIKeyStep {d kid p now d'} : Reachable d →
      updateAPIKey d kid p now = .ok d' → Reachable d'

/-- The uniqueness constraints declared with `unique=True` in models.py:
no two user rows share an email or a username, and no two API-key rows share
a key hash. -/
def DB.UniqueFields (d : DB) : Prop :=
  (d.users.map User.email).Nodup ∧
  (d.users.map User.username).Nodup ∧
  (d.apiKeys.map APIKey.key_hash).Nodup

/-- The internal store invariant: the unique columns, plus primary-key
discipline (every row's id is assigned and below `nextId`, and ids are
pairwise distinct). -/
def DB.Admissible (d : DB) : Prop :=
  d.UniqueFields ∧
  (∀ u ∈ d.users, ∃ n, u.id = some n ∧ n < d.nextId) ∧
  (d.users.map User.id).Nodup ∧
  (∀ k ∈ d.apiKeys, ∃ n, k.id = some n ∧ n < d.nextId) ∧
  (d.apiKeys.map APIKey.id).Nodup

/-! ### Concrete sample records used by the theorems below -/

/-- An `AgentCreate` payload carrying a given voice pitch and the declared
defaults everywhere else. -/
def agentCreateWithPitch (q : ℚ) : AgentCreate :=
  { name := "agent", voice_pitch := q }

/-- A concrete persisted `Agent` with in-range configuration. -/
def agentSample : Agent :=
  { id := some 1, user_id := 1, name := "agent", created_at := 0,
    updated_at := 0 }

/-- `xs` is contained in `ys`, read as field-name sets. -/
def fieldsSubset (xs ys : List String) : Bool :=
  xs.all ys.contains

/-- Every payload type other than `UserCreate`, paired with the column list
of its persisted counterpart entity. -/
def payloadCounterparts : List (List String × List String) :=
  [(UserUpdate.fieldNames, User.fieldNames),
   (AgentCreate.fieldNames, Agent.fieldNames),
   (AgentUpdate.fieldNames, Agent.fieldNames),
   (ServiceConfigCreate.fieldNames, AgentServiceConfig.fieldNames),
   (ServiceConfigUpdate.fieldNames, AgentServiceConfig.fieldNames),
   (APIKeyCreate.fieldNames, APIKey.fieldNames),
   (APIKeyUpdate.fieldNames, APIKey.fieldNames),
   (TestSessionCreate.fieldNames, TestSession.fieldNames),
   (ConversationEntry.fieldNames, ConversationLog.fieldNames),
   (AIServiceCreate.fieldNames, AIService.fieldNames),
   (AIServiceUpdate.fieldNames, AIService.fieldNames)]

/-! ### Claims about the closed enumerations -/

/-- C4: `service_type`, agent `status` and test-session `status` are closed
enumerations: constructing a member from a string succeeds exactly on the
declared value sets {tts, stt, llm}, {draft, active, inactive},
{active, completed, failed}, every declared member round-trips, and any
other string is rejected. -/
theorem C4_closed_enumerations :
    (∀ s : String, (ServiceType.ofString s).isSome =
        (s == "tts" || s == "stt" || s == "llm")) ∧
    (∀ s : String, (AgentStatus.ofString s).isSome =
        (s == "draft" || s == "active" || s == "inactive")) ∧
    (∀ s : String, (TestSessionStatus.ofString s).isSome =
        (s == "active" || s == "completed" || s == "failed")) ∧
    (∀ v : ServiceType, ServiceType.ofString v.value = some v) ∧
    (∀ v : AgentStatus, AgentStatus.ofString v.value = some v) ∧
    (∀ v : TestSessionStatus, TestSessionStatus.ofString v.value = some v) ∧
    ServiceType.ofString "bogus" = none := by
  refine ⟨?_, ?_, ?_, ?_, ?_, ?_, by decide⟩
  · intro s
    by_cases h1 : s = "tts" <;> by_cases h2 : s = "stt" <;>
      by_cases h3 : s = "llm" <;>
      simp_all [ServiceType.ofString]
  · intro s
    by_cases h1 : s = "draft" <;> by_cases h2 : s = "active" <;>
      by_cases h3 : s = "inactive" <;>
      simp_all [AgentStatus.ofString]
  · intro s
    by_cases h1 : s = "active" <;> by_cases h2 : s = "completed" <;>
      by_cases h3 : s = "failed" <;>
      simp_all [TestSessionStatus.ofString]
  · intro v; cases v <;> decide
  · intro v; cases v <;> decide
  · intro v; cases v <;> decide

/-! ### Claims about the fixed service type (C9) and the user frame (C10) -/

/-- C9: `AIServiceUpdate` carries no `service_type` field, so an
`AIService`'s service type after any update — indeed after any sequence of
updates — equals the one it was created with. -/
theorem C9_service_type_fixed_at_creation :
    AIServiceUpdate.fieldNames.contains "service_type" = false ∧
    (∀ (s : AIService) (p : AIServiceUpdate),
        (applyAIServiceUpdate s p).service_type = s.service_type) ∧
    (∀ (s : AIService) (ps : List AIServiceUpdate),
        (ps.foldl applyAIServiceUpdate s).service_type = s.service_type) ∧
    (∀ (c : AIServiceCreate) (newId now : Nat),
        (mkAIService c newId now).service_type = c.service_type) := by
  refine ⟨by decide, fun s p => rfl, ?_, fun c newId now => rfl⟩
  intro s ps
  induction ps generalizing s with
  | nil => rfl
  | cons p ps ih => exact ih (applyAIServiceUpdate s p)

/-- C10: `UserUpdate` declares only `full_name` and `username`, so applying
any `UserUpdate` to a persisted `User` leaves `email`, `password_hash`,
`is_active` and `created_at` unchanged; in particular a user's email can
never change through the declared update interface, even across a sequence
of updates. -/
theorem C10_user_update_frame :
    UserUpdate.fieldNames = ["full_name", "username"] ∧
    (∀ (u : User) (p : UserUpdate),
        (applyUserUpdate u p).email = u.email ∧
        (applyUserUpdate u p).password_hash = u.password_hash ∧
        (applyUserUpdate u p).is_active = u.is_active ∧
        (applyUserUpdate u p).created_at = u.created_at) ∧
    (∀ (u : User) (ps : List UserUpdate),
        (ps.foldl applyUserUpdate u).email = u.email) := by
  refine ⟨rfl, fun u p => ⟨rfl, rfl, rfl, rfl⟩, ?_⟩
  intro u ps
  induction ps generalizing u with
  | nil => rfl
  | cons p ps ih => exact ih (applyUserUpdate u p)

/-! ### Claim C7: payload fields versus persisted columns -/

/-- C7 counterexample: `UserCreate` declares a `password` field, but its
persisted counterpart `User` has no `password` column (only
`password_hash`), so `UserCreate`'s fields are not a subset of `User`'s. -/
theorem C7_counterexample_password_field :
    fieldsSubset UserCreate.fieldNames User.fieldNames = false ∧
    UserCreate.fieldNames.contains "password" = true ∧
    User.fieldNames.contains "password" = false ∧
    User.fieldNames.contains "password_hash" = true := by decide

/-- C7 amended: every payload type except `UserCreate` declares only fields
of its persisted counterpart, and strictly fewer (none carries the
server-assigned `id` column); `UserCreate`'s fields other than `password`
are likewise `User` columns, and `password` corresponds to the persisted
`password_hash` computed by the external authentication service. -/
theorem C7_payload_fields_subset :
    payloadCounterparts.all
      (fun pr => fieldsSubset pr.1 pr.2 &&
        !(pr.1.contains "id") && pr.2.contains "id") = true ∧
    fieldsSubset (UserCreate.fieldNames.filter (fun f => !(f == "password")))
      User.fieldNames = true ∧
    UserCreate.fieldNames.contains "id" = false ∧
    User.fieldNames.contains "password_hash" = true := by decide

/-! ### Claim C6: unset update fields leave the record unchanged -/

/-- The `AgentUpdate` payload with every field unset (the declared
defaults). -/
def AgentUpdate.unset : AgentUpdate := {}

/-- C6: applying the all-unset `AgentUpdate` to a persisted `Agent` leaves
the record unchanged, and more generally each unset field of any
`AgentUpdate` leaves the corresponding persisted field unchanged (fields
absent from the payload — id, user_id, created_at — can never change). -/
theorem C6_agent_update_unset_frame :
    (∀ a : Agent, applyAgentUpdate a AgentUpdate.unset = a) ∧
    (∀ (a : Agent) (p : AgentUpdate),
      (p.name = none → (applyAgentUpdate a p).name = a.name) ∧
      (p.description = none →
        (applyAgentUpdate a p).description = a.description) ∧
      (p.system_message = none →
        (applyAgentUpdate a p).system_message = a.system_message) ∧
      (p.voice_pitch = none →
        (applyAgentUpdate a p).voice_pitch = a.voice_pitch) ∧
      (p.voice_speed = none →
        (applyAgentUpdate a p).voice_speed = a.voice_speed) ∧
      (p.voice_volume = none →
        (applyAgentUpdate a p).voice_volume = a.voice_volume) ∧
      (p.response_timeout = none →
        (applyAgentUpdate a p).response_timeout = a.response_timeout) ∧
      (p.max_conversation_length = none →
        (applyAgentUpdate a p).max_conversation_length =
          a.max_conversation_length) ∧
      (p.status = none → (applyAgentUpdate a p).status = a.status)) ∧
    (∀ (a : Agent) (p : AgentUpdate),
      (applyAgentUpdate a p).id = a.id ∧
      (applyAgentUpdate a p).user_id = a.user_id ∧
      (applyAgentUpdate a p).created_at = a.created_at) := by
  refine ⟨fun a => rfl, fun a p => ?_, fun a p => ⟨rfl, rfl, rfl⟩⟩
  refine ⟨?_, ?_, ?_, ?_, ?_, ?_, ?_, ?_, ?_⟩ <;>
    · intro h; simp [applyAgentUpdate, h]

/-- Witness for C6 at a concrete agent and the all-unset payload. -/
theorem C6_witness :
    applyAgentUpdate agentSample AgentUpdate.unset = agentSample ∧
    AgentUpdate.unset.voice_pitch = none ∧
    (applyAgentUpdate agentSample AgentUpdate.unset).voice_pitch =
      agentSample.voice_pitch :=
  ⟨C6_agent_update_unset_frame.1 agentSample, rfl,
   ((C6_agent_update_unset_frame.2.1 agentSample
      AgentUpdate.unset).2.2.2.1) rfl⟩

/-! ### Claim C8: usage_count is non-negative and never lowered -/

/-- A concrete persisted `APIKey` with the declared defaults. -/
def apiKeySample : APIKey :=
  { id := some 3, agent_id := 1, key_hash := "hash", key_preview := "pre",
    name := "key", created_at := 0, updated_at := 0 }

/-- C8: on every valid `APIKey` the declared constraint gives
`usage_count ≥ 0`; `APIKeyUpdate` has no `usage_count` field, so applying
any update — or any sequence of updates — leaves `usage_count` unchanged
(in particular never lowered), and a freshly created key starts at the
declared default 0. -/
theorem C8_usage_count_monotone :
    (∀ k : APIKey, k.isValid = true → 0 ≤ k.usage_count) ∧
    APIKeyUpdate.fieldNames.contains "usage_count" = false ∧
    (∀ (k : APIKey) (p : APIKeyUpdate),
        (applyAPIKeyUpdate k p).usage_count = k.usage_count) ∧
    (∀ (k : APIKey) (ps : List APIKeyUpdate),
        (ps.foldl applyAPIKeyUpdate k).usage_count = k.usage_count) ∧
    (∀ (d : DB) (agentId : Nat) (c : APIKeyCreate)
        (keyHash keyPreview : String) (now : Nat) (d' : DB),
        createAPIKey d agentId c keyHash keyPreview now = .ok d' →
        ∀ k ∈ d'.apiKeys, k ∈ d.apiKeys ∨ k.usage_count = 0) := by
  refine ⟨?_, by decide, fun k p => rfl, ?_, ?_⟩
  · intro k h
    simp only [APIKey.isValid, Bool.and_eq_true, decide_eq_true_eq] at h
    exact h.1.1.2
  · intro k ps
    induction ps generalizing k with
    | nil => rfl
    | cons p ps ih => exact ih (applyAPIKeyUpdate k p)
  · intro d agentId c keyHash keyPreview now d' h k hk
    rw [createAPIKey] at h
    split at h
    · exact absurd h (by simp)
    · cases h
      rcases List.mem_cons.mp hk with h' | h'
      · right; rw [h']
      · left; exact h'

/-- Witness for C8 at a concrete valid key. -/
theorem C8_witness :
    apiKeySample.isValid = true ∧ 0 ≤ apiKeySample.usage_count :=
  ⟨by decide, C8_usage_count_monotone.1 apiKeySample (by decide)⟩

/-! ### Claim C1: numeric configuration ranges -/

/-- The numeric-range content of `Agent.isValid`. -/
theorem agentValidRanges {a : Agent} (h : a.isValid = true) :
    (Rat.divInt 1 10 ≤ a.voice_pitch ∧ a.voice_pitch ≤ 2) ∧
    (Rat.divInt 1 10 ≤ a.voice_speed ∧ a.voice_speed ≤ 3) ∧
    (Rat.divInt 1 10 ≤ a.voice_volume ∧ a.voice_volume ≤ 2) ∧
    (5 ≤ a.response_timeout ∧ a.response_timeout ≤ 300) ∧
    (1 ≤ a.max_conversation_length ∧ a.max_conversation_length ≤ 1000) := by
  simp only [Agent.isValid, Bool.and_eq_true, decide_eq_true_eq] at h
  obtain ⟨⟨⟨⟨⟨⟨⟨⟨⟨⟨⟨⟨h1, h2⟩, h3⟩, h4⟩, h5⟩, h6⟩, h7⟩, h8⟩, h9⟩, h10⟩,
    h11⟩, h12⟩, h13⟩ := h
  exact ⟨⟨h4, h5⟩, ⟨h6, h7⟩, ⟨h8, h9⟩, ⟨h10, h11⟩, h12, h13⟩

/-- The numeric-range content of `AgentCreate.isValid`. -/
theorem agentCreateValidRanges {c : AgentCreate} (h : c.isValid = true) :
    (Rat.divInt 1 10 ≤ c.voice_pitch ∧ c.voice_pitch ≤ 2) ∧
    (Rat.divInt 1 10 ≤ c.voice_speed ∧ c.voice_speed ≤ 3) ∧
    (Rat.divInt 1 10 ≤ c.voice_volume ∧ c.voice_volume ≤ 2) ∧
    (5 ≤ c.response_timeout ∧ c.response_timeout ≤ 300) ∧
    (1 ≤ c.max_conversation_length ∧ c.max_conversation_length ≤ 1000) := by
  simp only [AgentCreate.isValid, Bool.and_eq_true, decide_eq_true_eq] at h
  obtain ⟨⟨⟨⟨⟨⟨⟨⟨⟨⟨⟨⟨h1, h2⟩, h3⟩, h4⟩, h5⟩, h6⟩, h7⟩, h8⟩, h9⟩, h10⟩,
    h11⟩, h12⟩, h13⟩ := h
  exact ⟨⟨h4, h5⟩, ⟨h6, h7⟩, ⟨h8, h9⟩, ⟨h10, h11⟩, h12, h13⟩

/-- C1: every valid `Agent` record and every valid `AgentCreate` payload has
`voice_pitch ∈ [0.1, 2]`, `voice_speed ∈ [0.1, 3]`, `voice_volume ∈ [0.1, 2]`,
`response_timeout ∈ [5, 300]` and `max_conversation_length ∈ [1, 1000]`;
a payload with any of these values out of range fails validation; in
particular `voice_pitch = 2.5` is rejected and `voice_pitch = 2` is
accepted. -/
theorem C1_numeric_configuration_ranges :
    (∀ a : Agent, a.isValid = true →
      (Rat.divInt 1 10 ≤ a.voice_pitch ∧ a.voice_pitch ≤ 2) ∧
      (Rat.divInt 1 10 ≤ a.voice_speed ∧ a.voice_speed ≤ 3) ∧
      (Rat.divInt 1 10 ≤ a.voice_volume ∧ a.voice_volume ≤ 2) ∧
      (5 ≤ a.response_timeout ∧ a.response_timeout ≤ 300) ∧
      (1 ≤ a.max_conversation_length ∧ a.max_conversation_length ≤ 1000)) ∧
    (∀ c : AgentCreate, c.isValid = true →
      (Rat.divInt 1 10 ≤ c.voice_pitch ∧ c.voice_pitch ≤ 2) ∧
      (Rat.divInt 1 10 ≤ c.voice_speed ∧ c.voice_speed ≤ 3) ∧
      (Rat.divInt 1 10 ≤ c.voice_volume ∧ c.voice_volume ≤ 2) ∧
      (5 ≤ c.response_timeout ∧ c.response_timeout ≤ 300) ∧
      (1 ≤ c.max_conversation_length ∧ c.max_conversation_length ≤ 1000)) ∧
    (∀ c : AgentCreate,
      (c.voice_pitch < Rat.divInt 1 10 ∨ 2 < c.voice_pitch ∨
       c.voice_speed < Rat.divInt 1 10 ∨ 3 < c.voice_speed ∨
       c.voice_volume < Rat.divInt 1 10 ∨ 2 < c.voice_volume ∨
       c.response_timeout < 5 ∨ 300 < c.response_timeout ∨
       c.max_conversation_length < 1 ∨ 1000 < c.max_conversation_length) →
      c.isValid = false) ∧
    (agentCreateWithPitch (Rat.divInt 5 2)).isValid = false ∧
    (agentCreateWithPitch 2).isValid = true := by
  refine ⟨fun a h => agentValidRanges h,
    fun c h => agentCreateValidRanges h, ?_, by decide, by decide⟩
  intro c hv
  cases hb : c.isValid
  · rfl
  · exfalso
    have hr := agentCreateValidRanges hb
    rcases hv with h | h | h | h | h | h | h | h | h | h
    · exact absurd hr.1.1 (not_le.mpr h)
    · exact absurd hr.1.2 (not_le.mpr h)
    · exact absurd hr.2.1.1 (not_le.mpr h)
    · exact absurd hr.2.1.2 (not_le.mpr h)
    · exact absurd hr.2.2.1.1 (not_le.mpr h)
    · exact absurd hr.2.2.1.2 (not_le.mpr h)
    · exact absurd hr.2.2.2.1.1 (not_le.mpr h)
    · exact absurd hr.2.2.2.1.2 (not_le.mpr h)
    · exact absurd hr.2.2.2.2.1 (not_le.mpr h)
    · exact absurd hr.2.2.2.2.2 (not_le.mpr h)

/-- Witness for C1: the sample agent is valid and in range, and the
out-of-range payload `voice_pitch = 5/2` is rejected through the range
premise `2 < 5/2`. -/
theorem C1_witness :
    agentSample.isValid = true ∧
    (Rat.divInt 1 10 ≤ agentSample.voice_pitch ∧
      agentSample.voice_pitch ≤ 2) ∧
    (agentCreateWithPitch (Rat.divInt 5 2)).isValid = false :=
  ⟨by decide, (C1_numeric_configuration_ranges.1 agentSample (by decide)).1,
   C1_numeric_configuration_ranges.2.2.1 (agentCreateWithPitch
     (Rat.divInt 5 2)) (Or.inr (Or.inl (by decide)))⟩

/-! ### Claim C3: email format and password length -/

/-- The content of `UserCreate.isValid`. -/
theorem UserCreate.valid_parts {c : UserCreate} (h : c.isValid = true) :
    emailMatches c.email = true ∧
    8 ≤ c.password.length ∧ c.password.length ≤ 100 := by
  simp only [UserCreate.isValid, Bool.and_eq_true, decide_eq_true_eq] at h
  obtain ⟨⟨⟨⟨⟨h1, h2⟩, h3⟩, h4⟩, h5⟩, h6⟩ := h
  exact ⟨h2, h5, h6⟩

/-- The email content of `User.isValid`. -/
theorem User.valid_email {u : User} (h : u.isValid = true) :
    emailMatches u.email = true := by
  simp only [User.isValid, Bool.and_eq_true, decide_eq_true_eq] at h
  exact h.1.1.1.2

/-- A concrete valid `UserCreate` payload. -/
def userCreateAlice : UserCreate :=
  { email := "alice@example.com", username := "alice", full_name := "Alice",
    password := "password1" }

/-- A `UserCreate` payload whose email does not match the pattern. -/
def userCreateBadEmail : UserCreate :=
  { email := "not-an-email", username := "bob", full_name := "Bob",
    password := "password1" }

/-- C3: on every valid `User` and `UserCreate` the email matches the
declared local@domain pattern, and on `UserCreate` the password length lies
in [8, 100]; violating either constraint fails validation.  In particular
"not-an-email" is rejected and "a@b.co" is accepted. -/
theorem C3_email_and_password :
    (∀ c : UserCreate, c.isValid = true →
        emailMatches c.email = true ∧
        8 ≤ c.password.length ∧ c.password.length ≤ 100) ∧
    (∀ u : User, u.isValid = true → emailMatches u.email = true) ∧
    (∀ c : UserCreate, emailMatches c.email = false → c.isValid = false) ∧
    (∀ c : UserCreate,
        c.password.length < 8 ∨ 100 < c.password.length →
        c.isValid = false) ∧
    emailMatches "not-an-email" = false ∧
    emailMatches "a@b.co" = true := by
  refine ⟨fun c h => UserCreate.valid_parts h, fun u h => User.valid_email h,
    ?_, ?_, by decide, by decide⟩
  · intro c hm
    cases hb : c.isValid
    · rfl
    · exact absurd (UserCreate.valid_parts hb).1 (by rw [hm]; decide)
  · intro c hl
    cases hb : c.isValid
    · rfl
    · exfalso
      have hp := (UserCreate.valid_parts hb).2
      rcases hl with h | h
      · exact absurd hp.1 (not_le.mpr h)
      · exact absurd hp.2 (not_le.mpr h)

/-- Witness for C3 at concrete payloads: the valid payload's email matches
and its password length is in range; the bad-email payload is rejected. -/
theorem C3_witness :
    userCreateAlice.isValid = true ∧
    emailMatches userCreateAlice.email = true ∧
    8 ≤ userCreateAlice.password.length ∧
    userCreateBadEmail.isValid = false :=
  ⟨by decide, (C3_email_and_password.1 userCreateAlice (by decide)).1,
   (C3_email_and_password.1 userCreateAlice (by decide)).2.1,
   C3_email_and_password.2.2.1 userCreateBadEmail (by decide)⟩

/-! ### Claim C5: conversation sequencing and timing bounds -/

/-- The numeric content of `ConversationLog.isValid`. -/
theorem convLogValidBounds {l : ConversationLog}
    (h : l.isValid = true) :
    1 ≤ l.sequence_number ∧ 0 ≤ l.processing_time ∧
    (∀ q, l.tts_processing_time = some q → 0 ≤ q) ∧
    (∀ q, l.stt_processing_time = some q → 0 ≤ q) ∧
    (∀ q, l.llm_processing_time = some q → 0 ≤ q) := by
  simp only [ConversationLog.isValid, Bool.and_eq_true,
    decide_eq_true_eq] at h
  obtain ⟨⟨⟨⟨⟨⟨⟨⟨⟨h1, h2⟩, h3⟩, h4⟩, h5⟩, h6⟩, h7⟩, h8⟩, h9⟩, h10⟩ := h
  refine ⟨h1, h4, ?_, ?_, ?_⟩
  · intro q hq; rw [hq] at h5; simpa [Option.all] using h5
  · intro q hq; rw [hq] at h6; simpa [Option.all] using h6
  · intro q hq; rw [hq] at h7; simpa [Option.all] using h7

/-- The numeric content of `ConversationEntry.isValid`. -/
theorem convEntryValidBounds {e : ConversationEntry}
    (h : e.isValid = true) :
    0 ≤ e.processing_time ∧
    (∀ q, e.tts_processing_time = some q → 0 ≤ q) ∧
    (∀ q, e.stt_processing_time = some q → 0 ≤ q) ∧
    (∀ q, e.llm_processing_time = some q → 0 ≤ q) := by
  simp only [ConversationEntry.isValid, Bool.and_eq_true,
    decide_eq_true_eq] at h
  obtain ⟨⟨⟨⟨⟨⟨⟨⟨h1, h2⟩, h3⟩, h4⟩, h5⟩, h6⟩, h7⟩, h8⟩, h9⟩ := h
  refine ⟨h3, ?_, ?_, ?_⟩
  · intro q hq; rw [hq] at h4; simpa [Option.all] using h4
  · intro q hq; rw [hq] at h5; simpa [Option.all] using h5
  · intro q hq; rw [hq] at h6; simpa [Option.all] using h6

/-- A concrete valid `ConversationLog`. -/
def convLogSample : ConversationLog :=
  { id := some 5, test_session_id := 1, sequence_number := 1,
    user_input := "hi", agent_response := "hello", processing_time := 12,
    tts_processing_time := some 3, timestamp := 0 }

/-- C5: every valid `ConversationLog` has `sequence_number ≥ 1` and
`processing_time ≥ 0`, and each optional stage timing, when present, is
≥ 0; the same timing bounds hold on `ConversationEntry`; values below these
bounds fail validation. -/
theorem C5_conversation_timing_bounds :
    (∀ l : ConversationLog, l.isValid = true →
        1 ≤ l.sequence_number ∧ 0 ≤ l.processing_time ∧
        (∀ q, l.tts_processing_time = some q → 0 ≤ q) ∧
        (∀ q, l.stt_processing_time = some q → 0 ≤ q) ∧
        (∀ q, l.llm_processing_time = some q → 0 ≤ q)) ∧
    (∀ e : ConversationEntry, e.isValid = true →
        0 ≤ e.processing_time ∧
        (∀ q, e.tts_processing_time = some q → 0 ≤ q) ∧
        (∀ q, e.stt_processing_time = some q → 0 ≤ q) ∧
        (∀ q, e.llm_processing_time = some q → 0 ≤ q)) ∧
    (∀ l : ConversationLog, l.sequence_number < 1 → l.isValid = false) ∧
    (∀ l : ConversationLog, l.processing_time < 0 → l.isValid = false) ∧
    (∀ l : ConversationLog, ∀ q, l.tts_processing_time = some q → q < 0 →
        l.isValid = false) ∧
    (∀ e : ConversationEntry, e.processing_time < 0 →
        e.isValid = false) := by
  refine ⟨fun l h => convLogValidBounds h,
    fun e h => convEntryValidBounds h, ?_, ?_, ?_, ?_⟩
  · intro l hs
    cases hb : l.isValid
    · rfl
    · exact absurd (convLogValidBounds hb).1 (not_le.mpr hs)
  · intro l hp
    cases hb : l.isValid
    · rfl
    · exact absurd (convLogValidBounds hb).2.1 (not_le.mpr hp)
  · intro l q hq hneg
    cases hb : l.isValid
    · rfl
    · exact absurd ((convLogValidBounds hb).2.2.1 q hq)
        (not_le.mpr hneg)
  · intro e hp
    cases hb : e.isValid
    · rfl
    · exact absurd (convEntryValidBounds hb).1 (not_le.mpr hp)

/-- Witness for C5 at a concrete log: it validates, its bounds hold, and
its present tts timing is extracted as non-negative. -/
theorem C5_witness :
    convLogSample.isValid = true ∧
    1 ≤ convLogSample.sequence_number ∧
    (0 : ℚ) ≤ 3 :=
  ⟨by decide, (C5_conversation_timing_bounds.1 convLogSample (by decide)).1,
   (C5_conversation_timing_bounds.1 convLogSample (by decide)).2.2.1 3 rfl⟩

/-! ### Claim C2: uniqueness of email, username and key_hash -/

/-- A member of `replaceById getId uid x' l` is either the replacement `x'`
or a member of `l`. -/
theorem mem_replaceById {α : Type} {getId : α → Option Nat} {uid : Nat}
    {x' : α} {l : List α} {y : α} (hy : y ∈ replaceById getId uid x' l) :
    y = x' ∨ y ∈ l := by
  induction l with
  | nil => simp [replaceById] at hy
  | cons x xs ih =>
    rw [replaceById] at hy
    by_cases hx : getId x = some uid
    · rw [if_pos hx] at hy
      rcases List.mem_cons.mp hy with h | h
      · exact Or.inl h
      · exact Or.inr (List.mem_cons_of_mem _ h)
    · rw [if_neg hx] at hy
      rcases List.mem_cons.mp hy with h | h
      · subst h; exact Or.inr (List.mem_cons_self _ _)
      · rcases ih h with h' | h'
        · exact Or.inl h'
        · exact Or.inr (List.mem_cons_of_mem _ h')

/-- `Nodup` of a mapped column survives `replaceById` when ids are distinct
and any row sharing the replacement's column value must be the replaced
row (the one whose id is `uid`). -/
theorem nodup_map_replaceById {α β : Type} {getId : α → Option Nat}
    {uid : Nat} {x' : α} {f : α → β} {l : List α}
    (hf : (l.map f).Nodup) (hid : (l.map getId).Nodup)
    (hne : ∀ v ∈ l, f v = f x' → getId v = some uid) :
    ((replaceById getId uid x' l).map f).Nodup := by
  induction l with
  | nil => simp [replaceById]
  | cons x xs ih =>
    rw [List.map_cons, List.nodup_cons] at hf hid
    rw [replaceById]
    by_cases hx : getId x = some uid
    · rw [if_pos hx, List.map_cons, List.nodup_cons]
      refine ⟨?_, hf.2⟩
      intro hmem
      rcases List.mem_map.mp hmem with ⟨w, hw, hfw⟩
      have hwid : getId w = some uid :=
        hne w (List.mem_cons_of_mem _ hw) hfw
      exact hid.1 (List.mem_map.mpr ⟨w, hw, hwid.trans hx.symm⟩)
    · rw [if_neg hx, List.map_cons, List.nodup_cons]
      refine ⟨?_, ih hf.2 hid.2
        (fun v hv => hne v (List.mem_cons_of_mem _ hv))⟩
      intro hmem
      rcases List.mem_map.mp hmem with ⟨w, hw, hfw⟩
      rcases mem_replaceById hw with h' | h'
      · subst h'
        exact hx (hne x (List.mem_cons_self _ _) hfw.symm)
      · exact hf.1 (List.mem_map.mpr ⟨w, h', hfw⟩)

/-- `createUser` preserves the store invariant. -/
theorem admissible_createUser {d : DB} {c : UserCreate} {pwHash : String}
    {now : Nat} {d' : DB} (hd : d.Admissible)
    (h : createUser d c pwHash now = .ok d') : d'.Admissible := by
  rw [createUser] at h
  by_cases hv : (!c.isValid) = true
  · rw [if_pos hv] at h; exact Except.noConfusion h
  rw [if_neg hv] at h
  by_cases hdup : (d.users.any
      (fun u => u.email = c.email || u.username = c.username)) = true
  · rw [if_pos hdup] at h; exact Except.noConfusion h
  rw [if_neg hdup] at h
  have hfresh : ∀ u ∈ d.users, u.email ≠ c.email ∧ u.username ≠ c.username := by
    intro u hu
    constructor <;> intro he <;>
      exact hdup (List.any_eq_true.mpr ⟨u, hu, by simp [he]⟩)
  obtain ⟨⟨he, hun, hkh⟩, hub, huid, hkb, hkid⟩ := hd
  cases h
  refine ⟨⟨?_, ?_, hkh⟩, ?_, ?_, ?_, hkid⟩
  · rw [List.map_cons, List.nodup_cons]
    refine ⟨?_, he⟩
    intro hm
    rcases List.mem_map.mp hm with ⟨u, hu, hue⟩
    exact (hfresh u hu).1 hue
  · rw [List.map_cons, List.nodup_cons]
    refine ⟨?_, hun⟩
    intro hm
    rcases List.mem_map.mp hm with ⟨u, hu, hue⟩
    exact (hfresh u hu).2 hue
  · intro u hu
    rcases List.mem_cons.mp hu with h' | h'
    · subst h'; exact ⟨d.nextId, rfl, Nat.lt_succ_self _⟩
    · rcases hub u h' with ⟨n, hn, hlt⟩
      exact ⟨n, hn, Nat.lt_succ_of_lt hlt⟩
  · rw [List.map_cons, List.nodup_cons]
    refine ⟨?_, huid⟩
    intro hm
    rcases List.mem_map.mp hm with ⟨u, hu, hue⟩
    rcases hub u hu with ⟨n, hn, hlt⟩
    rw [hn] at hue
    exact absurd (Option.some.inj hue) (Nat.ne_of_lt hlt)
  · intro k hk
    rcases hkb k hk with ⟨n, hn, hlt⟩
    exact ⟨n, hn, Nat.lt_succ_of_lt hlt⟩

/-- `createAPIKey` preserves the store invariant. -/
theorem admissible_createAPIKey {d : DB} {agentId : Nat} {c : APIKeyCreate}
    {keyHash keyPreview : String} {now : Nat} {d' : DB} (hd : d.Admissible)
    (h : createAPIKey d agentId c keyHash keyPreview now = .ok d') :
    d'.Admissible := by
  rw [createAPIKey] at h
  by_cases hdup : (d.apiKeys.any (fun k => k.key_hash = keyHash)) = true
  · rw [if_pos hdup] at h; exact Except.noConfusion h
  rw [if_neg hdup] at h
  have hfresh : ∀ k ∈ d.apiKeys, k.key_hash ≠ keyHash := by
    intro k hk he
    exact hdup (List.any_eq_true.mpr ⟨k, hk, by simp [he]⟩)
  obtain ⟨⟨he, hun, hkh⟩, hub, huid, hkb, hkid⟩ := hd
  cases h
  refine ⟨⟨he, hun, ?_⟩, ?_, huid, ?_, ?_⟩
  · rw [List.map_cons, List.nodup_cons]
    refine ⟨?_, hkh⟩
    intro hm
    rcases List.mem_map.mp hm with ⟨k, hk, hke⟩
    exact hfresh k hk hke
  · intro u hu
    rcases hub u hu with ⟨n, hn, hlt⟩
    exact ⟨n, hn, Nat.lt_succ_of_lt hlt⟩
  · intro k hk
    rcases List.mem_cons.mp hk with h' | h'
    · subst h'; exact ⟨d.nextId, rfl, Nat.lt_succ_self _⟩
    · rcases hkb k h' with ⟨n, hn, hlt⟩
      exact ⟨n, hn, Nat.lt_succ_of_lt hlt⟩
  · rw [List.map_cons, List.nodup_cons]
    refine ⟨?_, hkid⟩
    intro hm
    rcases List.mem_map.mp hm with ⟨k, hk, hke⟩
    rcases hkb k hk with ⟨n, hn, hlt⟩
    rw [hn] at hke
    exact absurd (Option.some.inj hke) (Nat.ne_of_lt hlt)

/-- `updateUser` preserves the store invariant. -/
theorem admissible_updateUser {d : DB} {uid : Nat} {p : UserUpdate}
    {now : Nat} {d' : DB} (hd : d.Admissible)
    (h : updateUser d uid p now = .ok d') : d'.Admissible := by
  rw [updateUser] at h
  split at h
  · exact Except.noConfusion h
  rename_i u hf
  by_cases hv : (!p.isValid) = true
  · rw [if_pos hv] at h; exact Except.noConfusion h
  rw [if_neg hv] at h
  by_cases hdup : (d.users.any (fun v => decide (v.id ≠ some uid) &&
      decide (v.username = (applyUserUpdate u p).username))) = true
  · rw [if_pos hdup] at h; exact Except.noConfusion h
  rw [if_neg hdup] at h
  cases h
  have huid : u.id = some uid := by simpa using List.find?_some hf
  have humem : u ∈ d.users := List.mem_of_find?_eq_some hf
  obtain ⟨⟨he, hun, hkh⟩, hub, huidn, hkb, hkid⟩ := hd
  refine ⟨⟨?_, ?_, hkh⟩, ?_, ?_, hkb, hkid⟩
  · apply nodup_map_replaceById he huidn
    intro v hv' hve
    have hvu : v = u := List.inj_on_of_nodup_map he hv' humem hve
    rw [hvu]; exact huid
  · apply nodup_map_replaceById hun huidn
    intro v hv' hvu
    have hvu' : v.username = (applyUserUpdate u p).username := hvu
    by_contra hne
    exact hdup (List.any_eq_true.mpr ⟨v, hv', by simp [hne, hvu']⟩)
  · intro v hv'
    rcases mem_replaceById hv' with h' | h'
    · subst h'
      rcases hub u humem with ⟨n, hn, hlt⟩
      exact ⟨n, hn, hlt⟩
    · exact hub v h'
  · apply nodup_map_replaceById huidn huidn
    intro v hv' hvi
    rw [hvi]; exact huid

/-- `updateAPIKey` preserves the store invariant. -/
theorem admissible_updateAPIKey {d : DB} {kid : Nat} {p : APIKeyUpdate}
    {now : Nat} {d' : DB} (hd : d.Admissible)
    (h : updateAPIKey d kid p now = .ok d') : d'.Admissible := by
  rw [updateAPIKey] at h
  split at h
  · exact Except.noConfusion h
  rename_i k hf
  cases h
  have hkidq : k.id = some kid := by simpa using List.find?_some hf
  have hkmem : k ∈ d.apiKeys := List.mem_of_find?_eq_some hf
  obtain ⟨⟨he, hun, hkh⟩, hub, huidn, hkb, hkid⟩ := hd
  refine ⟨⟨he, hun, ?_⟩, hub, huidn, ?_, ?_⟩
  · apply nodup_map_replaceById hkh hkid
    intro v hv' hve
    have hvk : v = k := List.inj_on_of_nodup_map hkh hv' hkmem hve
    rw [hvk]; exact hkidq
  · intro v hv'
    rcases mem_replaceById hv' with h' | h'
    · subst h'
      rcases hkb k hkmem with ⟨n, hn, hlt⟩
      exact ⟨n, hn, hlt⟩
    · exact hkb v h'
  · apply nodup_map_replaceById hkid hkid
    intro v hv' hvi
    rw [hvi]; exact hkidq

/-- Every reachable store satisfies the invariant. -/
theorem reachable_admissible {d : DB} (h : Reachable d) : d.Admissible := by
  induction h with
  | empty =>
      exact ⟨⟨List.nodup_nil, List.nodup_nil, List.nodup_nil⟩,
        by intro u hu; exact absurd hu (List.not_mem_nil u), List.nodup_nil,
        by intro k hk; exact absurd hk (List.not_mem_nil k), List.nodup_nil⟩
  | createUserStep _ hstep ih => exact admissible_createUser ih hstep
  | updateUserStep _ hstep ih => exact admissible_updateUser ih hstep
  | createAPIKeyStep _ hstep ih => exact admissible_createAPIKey ih hstep
  | updateAPIKeyStep _ hstep ih => exact admissible_updateAPIKey ih hstep

/-- C2: in every reachable store no two user rows share an email or a
username and no two API-key rows share a key hash; a create that would
duplicate one of these unique columns fails with `uniquenessConflict`
(returning an error, so it adds no record). -/
theorem C2_unique_user_and_key_fields :
    (∀ d : DB, Reachable d →
      (d.users.map User.email).Nodup ∧
      (d.users.map User.username).Nodup ∧
      (d.apiKeys.map APIKey.key_hash).Nodup) ∧
    (∀ (d : DB) (c : UserCreate) (pwHash : String) (now : Nat),
      c.isValid = true →
      (∃ u ∈ d.users, u.email = c.email ∨ u.username = c.username) →
      createUser d c pwHash now = .error .uniquenessConflict) ∧
    (∀ (d : DB) (agentId : Nat) (c : APIKeyCreate)
        (keyHash keyPreview : String) (now : Nat),
      (∃ k ∈ d.apiKeys, k.key_hash = keyHash) →
      createAPIKey d agentId c keyHash keyPreview now =
        .error .uniquenessConflict) := by
  refine ⟨fun d hr => (reachable_admissible hr).1, ?_, ?_⟩
  · intro d c pwHash now hv hex
    obtain ⟨u, hu, hdupl⟩ := hex
    rw [createUser, if_neg (by simp [hv]),
      if_pos (List.any_eq_true.mpr
        ⟨u, hu, by rcases hdupl with h | h <;> simp [h]⟩)]
  · intro d agentId c keyHash keyPreview now hex
    obtain ⟨k, hk, hdupl⟩ := hex
    rw [createAPIKey,
      if_pos (List.any_eq_true.mpr ⟨k, hk, by simp [hdupl]⟩)]

/-- The persisted row created from `userCreateAlice`. -/
def aliceRow : User :=
  { id := some 1, email := "alice@example.com", username := "alice",
    full_name := "Alice", password_hash := "pw-hash", is_active := true,
    created_at := 0, updated_at := 0 }

/-- The store after creating `aliceRow` in the empty store. -/
def dbAlice : DB := { users := [aliceRow], apiKeys := [], nextId := 2 }

/-- A valid `UserCreate` payload that reuses the username "alice". -/
def userCreateAlice2 : UserCreate :=
  { email := "alice2@example.com", username := "alice",
    full_name := "Alice Two", password := "password2" }

/-- Witness for C2: the store reached by one create has distinct unique
columns, and a second create reusing the username "alice" fails with a
uniqueness conflict. -/
theorem C2_witness :
    (dbAlice.users.map User.email).Nodup ∧
    createUser dbAlice userCreateAlice2 "pw-hash2" 1 =
      .error .uniquenessConflict :=
  ⟨(C2_unique_user_and_key_fields.1 dbAlice
      (@Reachable.createUserStep DB.empty userCreateAlice "pw-hash" 0 dbAlice
        Reachable.empty (by rfl))).1,
   C2_unique_user_and_key_fields.2.1 dbAlice userCreateAlice2 "pw-hash2" 1
     (by decide) ⟨aliceRow, by decide, Or.inr rfl⟩⟩

end Models
